import Mathlib

/-!
Verification development for `jax/_src/numpy/ndarray.py`.

The file under study defines:
* `ArrayMeta.__instancecheck__` (lines 27-37): a custom membership check used
  by `isinstance(v, ndarray)`;
* `ndarray.__init__` (lines 46-49): raises `TypeError` unconditionally;
* module-level registrations (lines 289-292): `ndarray.register(...)` for
  `device_array.DeviceArray`, every type in
  `device_array.device_array_types`, and `pxla._SDA_BASE_CLASS`.

We embed these shallowly, keeping Python evaluation order and exception
semantics explicit.  Runtime types are identified by `Nat`.  An attribute
getter is arbitrary Python code, so each of the two accesses performed by
`__instancecheck__` (one inside `hasattr`, one for `instance.aval`) gets its
own recorded outcome; for a well-behaved value the two outcomes coincide.
-/

/-- Modelled from the spec: the abstract value descriptor carried by a
deferred computation value is, for classification purposes, a tag that is
either the unshaped-array classification, a more specific subtype of it, or
some other classification.  (`jax.core.UnshapedArray` and its subclasses
`ShapedArray` and `ConcreteArray` are repository code absent from the
excerpt; the spec calls this an "Abstract Value Descriptor" classified at
minimum as "unshaped array" vs. other.) -/
inductive AValClass where
  | unshapedArray
  | shapedArray
  | concreteArray
  | otherAbstract
deriving DecidableEq

/-- Which descriptor classifications satisfy
`isinstance(x, core.UnshapedArray)`: the unshaped-array classification and
its more specific subtypes. -/
def AValClass.isUnshapedArraySub : AValClass → Bool
  | AValClass.unshapedArray => true
  | AValClass.shapedArray => true
  | AValClass.concreteArray => true
  | AValClass.otherAbstract => false

/-- Outcome of one attribute access `v.aval` under Python semantics: the
access can return a descriptor, raise `AttributeError` (the attribute is
absent), or raise an exception of some unrelated type (the getter is
arbitrary code). -/
inductive AttrAccess where
  | absent
  | found (a : AValClass)
  | raisesOther
deriving DecidableEq

/-- A Python value as observed by `ArrayMeta.__instancecheck__`: `ty` is the
identifier of its runtime type; `avalAttr1` is the outcome of the first
access to `aval` (performed inside `hasattr(instance, "aval")`) and
`avalAttr2` the outcome of the second access (`instance.aval`). -/
structure PyVal where
  ty : Nat
  avalAttr1 : AttrAccess
  avalAttr2 : AttrAccess
deriving DecidableEq

/-- The process-wide set of types registered as virtual subclasses of
`ndarray` via `abc.ABCMeta`. -/
abbrev Registry := List Nat

/-- Embedding of `ndarray.register(t)` (Python stdlib `abc.ABCMeta.register`):
adds a type to the registry of virtual subclasses.  `ABCMeta` offers no
unregister operation, so the only state transition adds an entry. -/
def register (regs : Registry) (t : Nat) : Registry :=
  t :: regs

/-- The structural check performed by `abc.ABCMeta.__instancecheck__`, which
is what `super().__instancecheck__(instance)` invokes on line 37: true iff
the runtime type of the value is among the registered virtual subclasses. -/
def superInstancecheck (regs : Registry) (v : PyVal) : Bool :=
  regs.contains v.ty

/-- What a call to `ArrayMeta.__instancecheck__` does, seen from the caller:
it can return a boolean, return `None` (control falls off the end of the
`except AttributeError` branch, whose body is a bare expression statement),
or let an exception propagate. -/
inductive PyResult where
  | val (b : Bool)
  | retNone
  | exn
deriving DecidableEq

/-- Shallow embedding of `ArrayMeta.__instancecheck__` (lines 27-37):

  try:
    return (hasattr(instance, "aval") and
            isinstance(instance.aval, core.UnshapedArray))
  except AttributeError:
    super().__instancecheck__(instance)

`hasattr` swallows `AttributeError` only; any other exception raised by the
`aval` getter propagates out of `hasattr` and is not caught by the
`except AttributeError` clause, so it escapes the method.  When `hasattr`
returns false, the `and` short-circuits and the method returns `False`
without consulting the registry.  When `hasattr` returns true, `instance.aval`
is read a second time: if that second access raises `AttributeError`, the
`except` branch evaluates the superclass structural check but discards its
result, so the method returns `None`. -/
def instancecheck (regs : Registry) (v : PyVal) : PyResult :=
  match v.avalAttr1 with
  | AttrAccess.raisesOther => PyResult.exn
  | AttrAccess.absent => PyResult.val false
  | AttrAccess.found _ =>
      match v.avalAttr2 with
      | AttrAccess.raisesOther => PyResult.exn
      | AttrAccess.absent =>
          let _ := superInstancecheck regs v
          PyResult.retNone
      | AttrAccess.found a => PyResult.val a.isUnshapedArraySub

/-- Behavior of the builtin `isinstance(v, ndarray)`: it calls
`ArrayMeta.__instancecheck__` and coerces the returned object to a truth
value (`bool(None)` is `False`); a raised exception propagates to the
caller, modelled as `Option.none`. -/
def isinstance_ndarray (regs : Registry) (v : PyVal) : Option Bool :=
  match instancecheck regs v with
  | PyResult.val b => some b
  | PyResult.retNone => some false
  | PyResult.exn => Option.none

/-- State-passing form of `ArrayMeta.__instancecheck__`: the registry, the
only process-wide mutable state touched by the method, is threaded through
the body branch by branch.  The source body contains no assignment and no
call that mutates the registry, so every branch passes the registry through
unchanged. -/
def instancecheckSt (regs : Registry) (v : PyVal) : PyResult × Registry :=
  match v.avalAttr1 with
  | AttrAccess.raisesOther => (PyResult.exn, regs)
  | AttrAccess.absent => (PyResult.val false, regs)
  | AttrAccess.found _ =>
      match v.avalAttr2 with
      | AttrAccess.raisesOther => (PyResult.exn, regs)
      | AttrAccess.absent =>
          let _ := superInstancecheck regs v
          (PyResult.retNone, regs)
      | AttrAccess.found a => (PyResult.val a.isUnshapedArraySub, regs)

/-- Raised-exception kinds relevant to this file. -/
inductive PyExnKind where
  | typeError
  | attributeError
deriving DecidableEq

/-- The message of the `TypeError` raised by `ndarray.__init__`. -/
def ndarrayInitMsg : String :=
  "jax.numpy.ndarray() should not be instantiated explicitly. Use jax.numpy.array, or jax.numpy.zeros instead."

/-- Embedding of `ndarray.__init__` (lines 46-49): whatever the arguments,
`raise TypeError(...)` executes first, so every call fails. -/
def ndarray_init {α β γ δ ε ζ : Type} (shape : α) (dtype : β) (buffer : γ)
    (offset : δ) (strides : ε) (order : ζ) : Except (PyExnKind × String) Unit :=
  Except.error (PyExnKind.typeError, ndarrayInitMsg)

/-- Modelled from the spec: identifier for `device_array.DeviceArray`, a
concrete array type defined outside the excerpt. -/
def DeviceArrayTy : Nat := 0

/-- Modelled from the spec: identifier for `pxla._SDA_BASE_CLASS`, a
concrete array type defined outside the excerpt. -/
def SDABaseClassTy : Nat := 1

/-- The registrations executed at module initialization (lines 289-292),
for an arbitrary list of identifiers standing for
`device_array.device_array_types` (defined outside the excerpt):

  ndarray.register(device_array.DeviceArray)
  for t in device_array.device_array_types:
    ndarray.register(t)
  ndarray.register(pxla._SDA_BASE_CLASS)
-/
def initRegistry (device_array_types : List Nat) : Registry :=
  register (device_array_types.foldl register (register [] DeviceArrayTy))
    SDABaseClassTy

/-- Behavior of the builtin `issubclass(t, ndarray)` for a registered type:
`ArrayMeta` does not override `__subclasscheck__`, so the stdlib
`abc.ABCMeta.__subclasscheck__` runs and returns true for every type in the
registry of virtual subclasses. -/
def issubclass_ndarray (regs : Registry) (t : Nat) : Bool :=
  regs.contains t

/-- Registration keeps every previously registered type. -/
theorem mem_register (regs : Registry) (t x : Nat) (h : x ∈ regs) :
    x ∈ register regs t :=
  List.mem_cons_of_mem _ h

/-- Folding `register` over a list keeps every type already registered. -/
theorem mem_foldl_register_of_mem_acc :
    ∀ (l : List Nat) (acc : Registry) (x : Nat),
      x ∈ acc → x ∈ l.foldl register acc
  | [], _, _, h => h
  | t :: ts, acc, x, h =>
      mem_foldl_register_of_mem_acc ts (register acc t) x
        (mem_register acc t x h)

/-- Folding `register` over a list registers every type in the list. -/
theorem mem_foldl_register_of_mem :
    ∀ (l : List Nat) (acc : Registry) (x : Nat),
      x ∈ l → x ∈ l.foldl register acc
  | t :: ts, acc, x, h => by
      rcases List.mem_cons.mp h with h1 | h2
      · exact mem_foldl_register_of_mem_acc ts (register acc t) x
          (h1 ▸ List.mem_cons_self _ _)
      · exact mem_foldl_register_of_mem ts (register acc t) x h2

/-- The classification result never depends on the registry: the registry is
read only inside the discarded superclass call. -/
theorem instancecheck_registry_irrelevant (regs₁ regs₂ : Registry) (v : PyVal) :
    instancecheck regs₁ v = instancecheck regs₂ v := by
  rcases v with ⟨ty, a1, a2⟩
  cases a1 <;> cases a2 <;> rfl

/-- C1 counterexample: the runtime type of the value is registered and the
`aval` attribute is absent, yet `isinstance(v, ndarray)` returns false —
the claim predicts true.  When `hasattr` returns false the `and`
short-circuits and `False` is returned without consulting the registry. -/
theorem C1_counterexample :
    superInstancecheck (register [] 0)
        (PyVal.mk 0 AttrAccess.absent AttrAccess.absent) = true ∧
    isinstance_ndarray (register [] 0)
        (PyVal.mk 0 AttrAccess.absent AttrAccess.absent) = some false := by
  decide

/-- C1 amended: when the `aval` attribute is absent, the classification
predicate `isinstance(v, ndarray)` returns false, even when the runtime
type of the value is among the registered implementers; registration is
never consulted on this path. -/
theorem C1_absent_aval_false (regs : Registry) (v : PyVal)
    (hreg : regs.contains v.ty = true)
    (h1 : v.avalAttr1 = AttrAccess.absent) :
    isinstance_ndarray regs v = some false := by
  simp [isinstance_ndarray, instancecheck, h1]

/-- C1 witness: the amended statement at a registered type with the
attribute absent. -/
theorem C1_absent_aval_false_witness :
    isinstance_ndarray (register [] 2)
        (PyVal.mk 2 AttrAccess.absent AttrAccess.absent) = some false :=
  C1_absent_aval_false (register [] 2)
    (PyVal.mk 2 AttrAccess.absent AttrAccess.absent) (by decide) rfl

/-- C2: a value whose `aval` attribute accesses succeed and yield a
descriptor that is an instance of `core.UnshapedArray` (including any
subclass of it) is classified true by `isinstance(v, ndarray)`, whatever
the registry contains — in particular when its runtime type was never
registered. -/
theorem C2_unshaped_aval_true (regs : Registry) (v : PyVal) (a : AValClass)
    (h1 : v.avalAttr1 = AttrAccess.found a)
    (h2 : v.avalAttr2 = AttrAccess.found a)
    (hu : a.isUnshapedArraySub = true) :
    isinstance_ndarray regs v = some true := by
  simp [isinstance_ndarray, instancecheck, h1, h2, hu]

/-- C2 witness: an unregistered value carrying a `ShapedArray` descriptor
(a proper subclass of `UnshapedArray`) is classified true. -/
theorem C2_unshaped_aval_true_witness :
    isinstance_ndarray []
      (PyVal.mk 9 (AttrAccess.found AValClass.shapedArray)
        (AttrAccess.found AValClass.shapedArray)) = some true :=
  C2_unshaped_aval_true []
    (PyVal.mk 9 (AttrAccess.found AValClass.shapedArray)
      (AttrAccess.found AValClass.shapedArray))
    AValClass.shapedArray rfl rfl rfl

/-- C3 counterexample: a value whose `aval` getter raises an exception that
is not an `AttributeError` makes `isinstance(v, ndarray)` propagate that
exception (result `Option.none`), instead of evaluating as if the attribute
were absent (which would give `some false`) — `hasattr` swallows only
`AttributeError`, and the `except AttributeError` clause catches nothing
else. -/
theorem C3_counterexample :
    isinstance_ndarray []
      (PyVal.mk 0 AttrAccess.raisesOther AttrAccess.raisesOther)
      = Option.none := by
  decide

/-- C3 amended: the classification predicate never propagates
`AttributeError` — an absent attribute, or a second access that raises
`AttributeError`, yields false from `isinstance` — but an exception of an
unrelated type raised by the attribute access propagates to the caller. -/
theorem C3_only_attribute_error_swallowed (regs : Registry) (v : PyVal) :
    (v.avalAttr1 = AttrAccess.absent → isinstance_ndarray regs v = some false) ∧
    ((∃ a, v.avalAttr1 = AttrAccess.found a) →
        v.avalAttr2 = AttrAccess.absent →
        isinstance_ndarray regs v = some false) ∧
    (v.avalAttr1 = AttrAccess.raisesOther →
        isinstance_ndarray regs v = Option.none) := by
  refine ⟨fun h1 => ?_, fun h1 h2 => ?_, fun h1 => ?_⟩
  · simp [isinstance_ndarray, instancecheck, h1]
  · rcases h1 with ⟨a, h1⟩
    simp [isinstance_ndarray, instancecheck, h1, h2]
  · simp [isinstance_ndarray, instancecheck, h1]

/-- C3 witness: the three branches of the amended statement at concrete
values. -/
theorem C3_only_attribute_error_swallowed_witness :
    isinstance_ndarray []
      (PyVal.mk 1 AttrAccess.absent AttrAccess.absent) = some false ∧
    isinstance_ndarray []
      (PyVal.mk 1 (AttrAccess.found AValClass.otherAbstract) AttrAccess.absent)
      = some false ∧
    isinstance_ndarray []
      (PyVal.mk 1 AttrAccess.raisesOther AttrAccess.raisesOther)
      = Option.none :=
  ⟨(C3_only_attribute_error_swallowed []
      (PyVal.mk 1 AttrAccess.absent AttrAccess.absent)).1 rfl,
   (C3_only_attribute_error_swallowed []
      (PyVal.mk 1 (AttrAccess.found AValClass.otherAbstract)
        AttrAccess.absent)).2.1 ⟨AValClass.otherAbstract, rfl⟩ rfl,
   (C3_only_attribute_error_swallowed []
      (PyVal.mk 1 AttrAccess.raisesOther AttrAccess.raisesOther)).2.2 rfl⟩

/-- C4: a value whose runtime type is not registered and which either has no
`aval` attribute at all, or carries a descriptor that is not an instance of
`core.UnshapedArray`, is classified false by `isinstance(v, ndarray)`. -/
theorem C4_neither_false (regs : Registry) (v : PyVal)
    (hreg : regs.contains v.ty = false)
    (h : (v.avalAttr1 = AttrAccess.absent ∧ v.avalAttr2 = AttrAccess.absent) ∨
         (∃ a, v.avalAttr1 = AttrAccess.found a ∧
               v.avalAttr2 = AttrAccess.found a ∧
               a.isUnshapedArraySub = false)) :
    isinstance_ndarray regs v = some false := by
  rcases h with ⟨h1, _⟩ | ⟨a, h1, h2, hu⟩
  · simp [isinstance_ndarray, instancecheck, h1]
  · simp [isinstance_ndarray, instancecheck, h1, h2, hu]

/-- C4 witness: an unregistered value carrying a descriptor not classified
as an unshaped array is classified false. -/
theorem C4_neither_false_witness :
    isinstance_ndarray []
      (PyVal.mk 3 (AttrAccess.found AValClass.otherAbstract)
        (AttrAccess.found AValClass.otherAbstract)) = some false :=
  C4_neither_false []
    (PyVal.mk 3 (AttrAccess.found AValClass.otherAbstract)
      (AttrAccess.found AValClass.otherAbstract))
    (by decide) (Or.inr ⟨AValClass.otherAbstract, rfl, rfl, rfl⟩)

/-- C5 counterexample: after registering type 0, a classification call on an
instance of type 0 whose `aval` attribute is absent returns false — the
claim predicts that every classification call on instances of a registered
type returns true. -/
theorem C5_counterexample :
    (register [] 0).contains 0 = true ∧
    isinstance_ndarray (register [] 0)
      (PyVal.mk 0 AttrAccess.absent AttrAccess.absent) = some false := by
  decide

/-- C5 amended: registration is append-only (`register` keeps every
previously registered type and only adds), but registration does not
influence classification: the classification result is the same under any
two registration states, so registering a type does not make classification
of its instances return true. -/
theorem C5_append_only_but_irrelevant :
    (∀ (regs : Registry) (t x : Nat), x ∈ regs → x ∈ register regs t) ∧
    (∀ (regs₁ regs₂ : Registry) (v : PyVal),
        isinstance_ndarray regs₁ v = isinstance_ndarray regs₂ v) := by
  constructor
  · exact fun regs t x h => mem_register regs t x h
  · intro regs₁ regs₂ v
    unfold isinstance_ndarray
    rw [instancecheck_registry_irrelevant regs₁ regs₂ v]

/-- C5 witness: both conjuncts of the amended statement at concrete
inputs. -/
theorem C5_append_only_but_irrelevant_witness :
    (0 : Nat) ∈ register [0] 1 ∧
    isinstance_ndarray [0] (PyVal.mk 0 AttrAccess.absent AttrAccess.absent)
      = isinstance_ndarray [] (PyVal.mk 0 AttrAccess.absent AttrAccess.absent) :=
  ⟨C5_append_only_but_irrelevant.1 [0] 1 0 (by decide),
   C5_append_only_but_irrelevant.2 [0] []
     (PyVal.mk 0 AttrAccess.absent AttrAccess.absent)⟩

/-- C6: at a value of a registered type whose first `aval` access succeeds
but whose second access raises `AttributeError`, `ArrayMeta.__instancecheck__`
returns `None` rather than a boolean: the superclass structural check (here
true, since the type is registered) is evaluated but its result is
discarded, and `isinstance` then coerces `None` to false. -/
theorem C6_exceptional_path_returns_none :
    instancecheck (register [] 0)
      (PyVal.mk 0 (AttrAccess.found AValClass.unshapedArray) AttrAccess.absent)
      = PyResult.retNone ∧
    superInstancecheck (register [] 0)
      (PyVal.mk 0 (AttrAccess.found AValClass.unshapedArray) AttrAccess.absent)
      = true ∧
    isinstance_ndarray (register [] 0)
      (PyVal.mk 0 (AttrAccess.found AValClass.unshapedArray) AttrAccess.absent)
      = some false := by
  decide

/-- C7: direct construction of `ndarray` always fails: for any arguments of
any types, `ndarray.__init__` raises `TypeError` with the message directing
callers to the factory functions. -/
theorem C7_init_always_raises {α β γ δ ε ζ : Type} (shape : α) (dtype : β)
    (buffer : γ) (offset : δ) (strides : ε) (order : ζ) :
    ndarray_init shape dtype buffer offset strides order
      = Except.error (PyExnKind.typeError, ndarrayInitMsg) :=
  rfl

/-- C7 witness: the statement at concrete arguments of assorted types. -/
theorem C7_init_always_raises_witness :
    ndarray_init (3, 4) "float32" [1, 2] 0 (8, 1) "C"
      = Except.error (PyExnKind.typeError, ndarrayInitMsg) :=
  C7_init_always_raises (3, 4) "float32" [1, 2] 0 (8, 1) "C"

/-- C8: the classification predicate is pure and deterministic: threading
the registry (the only process-wide mutable state) through the call leaves
it unchanged, and a second call on the same value in the resulting state
returns the same result as the first. -/
theorem C8_pure_deterministic (regs : Registry) (v : PyVal) :
    (instancecheckSt regs v).2 = regs ∧
    (instancecheckSt (instancecheckSt regs v).2 v).1
      = (instancecheckSt regs v).1 := by
  rcases v with ⟨ty, a1, a2⟩
  cases a1 <;> cases a2 <;> exact ⟨rfl, rfl⟩

/-- C9: the non-exceptional path returns `True` exactly when the value
carries an `aval` attribute (both accesses succeed) whose descriptor is an
instance of `core.UnshapedArray`; the right-hand side does not mention the
registry, so membership of the runtime type in the registered-implementer
set is never by itself sufficient for a `True` result. -/
theorem C9_true_characterization (regs : Registry) (v : PyVal) :
    instancecheck regs v = PyResult.val true ↔
      ∃ a₁ a, v.avalAttr1 = AttrAccess.found a₁ ∧
        v.avalAttr2 = AttrAccess.found a ∧ a.isUnshapedArraySub = true := by
  rcases v with ⟨ty, a1, a2⟩
  cases a1 <;> cases a2 <;>
    simp [instancecheck]

/-- C9 witness: the characterization applied in both directions at a
concrete unregistered value carrying an unshaped-array descriptor. -/
theorem C9_true_characterization_witness :
    instancecheck []
      (PyVal.mk 7 (AttrAccess.found AValClass.unshapedArray)
        (AttrAccess.found AValClass.unshapedArray)) = PyResult.val true :=
  (C9_true_characterization []
    (PyVal.mk 7 (AttrAccess.found AValClass.unshapedArray)
      (AttrAccess.found AValClass.unshapedArray))).mpr
    ⟨AValClass.unshapedArray, AValClass.unshapedArray, rfl, rfl, rfl⟩

/-- C10: after the module-level registrations run, `issubclass` holds with
respect to `ndarray` for `device_array.DeviceArray`, for every type in
`device_array.device_array_types`, and for `pxla._SDA_BASE_CLASS`. -/
theorem C10_init_registrations (device_array_types : List Nat) :
    issubclass_ndarray (initRegistry device_array_types) DeviceArrayTy = true ∧
    issubclass_ndarray (initRegistry device_array_types) SDABaseClassTy = true ∧
    ∀ t ∈ device_array_types,
      issubclass_ndarray (initRegistry device_array_types) t = true := by
  refine ⟨?_, ?_, fun t ht => ?_⟩
  · exact List.elem_eq_true_of_mem
      (List.mem_cons_of_mem _
        (mem_foldl_register_of_mem_acc device_array_types
          (register [] DeviceArrayTy) DeviceArrayTy (List.mem_cons_self _ _)))
  · exact List.elem_eq_true_of_mem (List.mem_cons_self _ _)
  · exact List.elem_eq_true_of_mem
      (List.mem_cons_of_mem _
        (mem_foldl_register_of_mem device_array_types
          (register [] DeviceArrayTy) t ht))

/-- C10 witness: the statement at a concrete two-element list of device
array types, including the membership conjunct at one of its elements. -/
theorem C10_init_registrations_witness :
    issubclass_ndarray (initRegistry [10, 11]) DeviceArrayTy = true ∧
    issubclass_ndarray (initRegistry [10, 11]) SDABaseClassTy = true ∧
    issubclass_ndarray (initRegistry [10, 11]) 10 = true :=
  ⟨(C10_init_registrations [10, 11]).1,
   (C10_init_registrations [10, 11]).2.1,
   (C10_init_registrations [10, 11]).2.2 10 (by decide)⟩
